import Mathlib

/-!
Shallow embedding of the DeepRL-pytorch repository pieces under verification:
the FIFO experience replay buffer (src/Algorithms/ddpg/replay_buffer.py) and
the TRPO actor KL-divergence computations (src/Algorithms/trpo/core.py),
together with the MLP/CNN ActorCritic construction logic.
-/

namespace DeepRL

/-! ### Replay buffer (src/Algorithms/ddpg/replay_buffer.py) -/

/-- One stored experience. The Python code appends the 5-element list
`[state, action, reward, next_state, terminal]` to the deque; all components
are modelled over one scalar-carrier type `α` (states are numpy arrays and
the rest scalars, but the buffer treats them opaquely). -/
structure Transition (α : Type) where
  state : α
  action : α
  reward : α
  next_state : α
  terminal : α
deriving DecidableEq, Inhabited

/-- The 5-element Python list `[state, action, reward, next_state, terminal]`
that `ReplayBuffer.append` actually stores. -/
def Transition.toList {α : Type} (t : Transition α) : List α :=
  [t.state, t.action, t.reward, t.next_state, t.terminal]

/-- A `collections.deque(maxlen=...)`: a list of items (oldest first) plus the
`maxlen` bound fixed at deque construction. Pickling a deque preserves both
the items and `maxlen`, which is what `ReplayBuffer.save` serializes. -/
structure Deque (α : Type) where
  items : List α
  maxlen : Nat
deriving DecidableEq

/-- `deque.append(x)`: appends on the right; when the deque already holds
`maxlen` items the leftmost (oldest) item is discarded first. The uniform
formula drops `length + 1 - maxlen` elements from the left of `items ++ [x]`,
which is 0 while below capacity and 1 at capacity (and handles `maxlen = 0`). -/
def Deque.push {α : Type} (d : Deque α) (x : α) : Deque α :=
  ⟨(d.items ++ [x]).drop (d.items.length + 1 - d.maxlen), d.maxlen⟩

/-- State of a `ReplayBuffer` object: the deque `self.buffer`, the capacity
`self.max_size`, and the instance attribute `self.size` (the count of valid
entries, maintained by `__init__` and `append`). -/
structure ReplayBuffer (α : Type) where
  buffer : Deque (Transition α)
  max_size : Nat
  size : Nat
deriving DecidableEq

/-- `ReplayBuffer.__init__(size)`: `self.buffer = deque(maxlen=size)`,
`self.max_size = size`, `self.size = 0`. -/
def ReplayBuffer.init {α : Type} (size : Nat) : ReplayBuffer α :=
  ⟨⟨[], size⟩, size, 0⟩

/-- `ReplayBuffer.append(...)`: increments `self.size` while it is below
`self.max_size`, then appends the 5-element transition list to the deque. -/
def ReplayBuffer.push {α : Type} (st : ReplayBuffer α) (t : Transition α) :
    ReplayBuffer α :=
  { st with
    size := if st.size < st.max_size then st.size + 1 else st.size,
    buffer := st.buffer.push t }

/-- Folding a whole sequence of `append` calls over a buffer. -/
def ReplayBuffer.pushAll {α : Type} (st : ReplayBuffer α)
    (ts : List (Transition α)) : ReplayBuffer α :=
  ts.foldl ReplayBuffer.push st

/-- Body of the class method `ReplayBuffer.size(self)`: `len(self.buffer)`. -/
def ReplayBuffer.sizeMethod {α : Type} (st : ReplayBuffer α) : Nat :=
  st.buffer.items.length

/-- What Python attribute lookup can yield for the name `size` on a
`ReplayBuffer` instance: the instance attribute (an int) or the bound class
method. -/
inductive SizeAttr where
  | intVal (n : Nat)
  | boundMethod
deriving DecidableEq

/-- Python attribute lookup for `obj.size` on a `ReplayBuffer` instance.
`__init__` stores the instance attribute `self.size = 0` (an int), and
instance attributes shadow plain class attributes such as the `size` method,
so the lookup always yields the int, never the bound method. -/
def ReplayBuffer.lookupSize {α : Type} (st : ReplayBuffer α) : SizeAttr :=
  SizeAttr.intVal st.size

/-- Python exceptions relevant to the embedded operations. -/
inductive PyError where
  | typeError
  | indexError
  | attributeError
deriving DecidableEq

/-- The call `obj.size()`. Attribute lookup yields the int instance attribute
(see `ReplayBuffer.lookupSize`), and calling an int raises
`TypeError: 'int' object is not callable`; only if lookup produced the bound
method would the method body `len(self.buffer)` run. -/
def ReplayBuffer.callSize {α : Type} (st : ReplayBuffer α) :
    Except PyError Nat :=
  match st.lookupSize with
  | SizeAttr.intVal _ => Except.error PyError.typeError
  | SizeAttr.boundMethod => Except.ok st.sizeMethod

/-- Failure modes of `np.random.choice(pop, size=k, replace=False)` (numpy
`RandomState.choice`), plus the IndexError a bad deque index would raise. -/
inductive SampleError where
  | popTooSmall
  | tooLargeSample
  | negDimensions
  | indexError
deriving DecidableEq

/-- Validation performed by `np.random.choice(pop, size=k, replace=False)`
with integer population `pop` and scalar size `k`, in source order:
first `pop <= 0 and np.prod(size) != 0` raises (a must be greater than 0
unless no samples are taken); then for `replace=False`, `size > pop` raises
(cannot take a larger sample than population); then `size < 0` raises
(negative dimensions are not allowed). -/
def choiceCheck (pop : Nat) (k : Int) : Except SampleError Unit :=
  if pop = 0 ∧ k ≠ 0 then Except.error SampleError.popTooSmall
  else if (pop : Int) < k then Except.error SampleError.tooLargeSample
  else if k < 0 then Except.error SampleError.negDimensions
  else Except.ok ()

/-- Postcondition of the index draw made by
`np.random.choice(pop, size=k, replace=False)` when its validation passes:
`k` indices, pairwise distinct (no replacement), all in `[0, pop)`. The
theorems quantify over every draw satisfying it, modelling the RNG as a
nondeterministic oracle. -/
def validDraw (pop k : Nat) (idxs : List Nat) : Prop :=
  idxs.length = k ∧ idxs.Nodup ∧ ∀ i ∈ idxs, i < pop

instance (pop k : Nat) (idxs : List Nat) : Decidable (validDraw pop k idxs) := by
  unfold validDraw
  infer_instance

/-- Python `zip(*rows)`: the truncating transpose of a list of rows, as a list
of columns. `zip()` of no rows is empty; otherwise columns are truncated to
the shortest row (all rows have length 5 here). -/
def zipStar {β : Type} : List (List β) → List (List β)
  | [] => []
  | [r] => r.map (fun x => [x])
  | r :: r2 :: rs => List.zipWith (fun x col => x :: col) r (zipStar (r2 :: rs))

/-- The list comprehension `[self.buffer[i] for i in idxs]`: gathers the items
at the given indices, failing (IndexError) as soon as an index is out of the
deque's range. -/
def gatherIdx {γ : Type} (l : List γ) : List Nat → Option (List γ)
  | [] => some []
  | i :: is =>
    match l[i]?, gatherIdx l is with
    | some x, some xs => some (x :: xs)
    | _, _ => none

/-- `ReplayBuffer.sample(batch_size)`:
`idxs = np.random.choice(self.size, size=batch_size, replace=False)` (modelled
by `choiceCheck` plus the oracle draw `idxs`), then
`batch = [self.buffer[i] for i in idxs]` (IndexError on an out-of-range deque
index), then `[np.asarray(x, dtype="float32") for x in list(zip(*batch))]`.
The float32 promotion `np.asarray(-, dtype="float32")` is modelled by the
elementwise conversion `cast`. -/
def ReplayBuffer.sample {α β : Type} (st : ReplayBuffer α) (cast : α → β)
    (batch_size : Int) (idxs : List Nat) :
    Except SampleError (List (List β)) :=
  match choiceCheck st.size batch_size with
  | Except.error e => Except.error e
  | Except.ok _ =>
    match gatherIdx st.buffer.items idxs with
    | none => Except.error SampleError.indexError
    | some batch =>
        Except.ok ((zipStar (batch.map Transition.toList)).map
          (fun col => col.map cast))

/-- Outcome of the assert in `ReplayBuffer.load`:
`AssertionError("Attempted to load buffer with different max size")`. -/
inductive LoadError where
  | capacityMismatch
deriving DecidableEq

/-- `ReplayBuffer.save(filename)`: pickles `self.buffer` (the deque carries
its items and its `maxlen`). -/
def ReplayBuffer.save {α : Type} (st : ReplayBuffer α) : Deque (Transition α) :=
  st.buffer

/-- `ReplayBuffer.load(filename)`: assigns `self.buffer` to the unpickled
deque, then asserts `self.buffer.maxlen == self.max_size`. The assignment
happens before the assert, so the returned state has the new deque either
way; the second component records whether the assert fired. Neither
`self.size` nor `self.max_size` is touched. -/
def ReplayBuffer.load {α : Type} (st : ReplayBuffer α)
    (d : Deque (Transition α)) : ReplayBuffer α × Option LoadError :=
  ({ st with buffer := d },
   if d.maxlen = st.max_size then none else some LoadError.capacityMismatch)

/-! ### TRPO actors and KL divergence (src/Algorithms/trpo/core.py)

Torch scalars are modelled as forward-mode dual numbers over the exact reals:
`val` is the tensor value and `tan` its derivative with respect to an
arbitrary scalar parametrization of the networks. `detach` zeroes the
derivative, which is exactly torch's semantics of cutting the gradient. -/

/-- Forward-mode dual number modelling one torch scalar. -/
structure Dual where
  val : ℝ
  tan : ℝ

namespace Dual

noncomputable def add (x y : Dual) : Dual := ⟨x.val + y.val, x.tan + y.tan⟩

noncomputable def sub (x y : Dual) : Dual := ⟨x.val - y.val, x.tan - y.tan⟩

noncomputable def mul (x y : Dual) : Dual :=
  ⟨x.val * y.val, x.tan * y.val + x.val * y.tan⟩

noncomputable def div (x y : Dual) : Dual :=
  ⟨x.val / y.val, (x.tan * y.val - x.val * y.tan) / (y.val * y.val)⟩

/-- torch.log. -/
noncomputable def dlog (x : Dual) : Dual := ⟨Real.log x.val, x.tan / x.val⟩

/-- torch.exp. -/
noncomputable def dexp (x : Dual) : Dual :=
  ⟨Real.exp x.val, x.tan * Real.exp x.val⟩

/-- A literal constant appearing in the source (2.0, 0.5): zero derivative. -/
noncomputable def const (r : ℝ) : Dual := ⟨r, 0⟩

/-- Tensor.detach(): same value, gradient cut. -/
def detach (x : Dual) : Dual := ⟨x.val, 0⟩

/-- torch.sum over a 1-D tensor. -/
noncomputable def dsum (l : List Dual) : Dual := l.foldr add (const 0)

/-- Tensor.mean() over a 1-D tensor: sum divided by length. -/
noncomputable def dmean (l : List Dual) : Dual :=
  div (dsum l) (const (l.length : ℝ))

end Dual

/-- torch.distributions.Categorical(logits=l).probs: the softmax of the
logits, probs_i = exp(l_i) / Σ_j exp(l_j). -/
noncomputable def softmaxD (l : List Dual) : List Dual :=
  (l.map Dual.dexp).map (fun e => Dual.div e (Dual.dsum (l.map Dual.dexp)))

/-- Value-level softmax over plain reals (used to state the spec formulas). -/
noncomputable def softmaxR (l : List ℝ) : List ℝ :=
  (l.map Real.exp).map (fun e => e / (l.map Real.exp).sum)

/-- Shared body of the two identical categorical `calculate_kl` methods:
given the batches of old and new probability rows, computes
`torch.sum(p0 * torch.log(p0 / p1), 1).mean()` where `p0` is the already
detached old-probability batch. -/
noncomputable def catKLD (p0 p1 : List (List Dual)) : Dual :=
  Dual.dmean ((p0.zip p1).map (fun pr =>
    Dual.dsum (List.zipWith
      (fun a b => Dual.mul a (Dual.dlog (Dual.div a b))) pr.1 pr.2)))

/-- MLPCategoricalActor: its `logits_net` MLP, as the function it computes on
one observation (a row of dual scalars). -/
structure MLPCategoricalActor (α : Type) where
  logits_net : α → List Dual

/-- `MLPCategoricalActor._distribution(obs).probs` for one observation. -/
noncomputable def MLPCategoricalActor.probs {α : Type}
    (a : MLPCategoricalActor α) (o : α) : List Dual :=
  softmaxD (a.logits_net o)

/-- `MLPCategoricalActor.calculate_kl(old_policy, new_policy, obs)`:
`p0 = old_policy._distribution(obs).probs.detach()`,
`p1 = new_policy._distribution(obs).probs`,
`return torch.sum(p0 * torch.log(p0 / p1), 1).mean()`. -/
noncomputable def MLPCategoricalActor.calculate_kl {α : Type}
    (old_policy new_policy : MLPCategoricalActor α) (obs : List α) : Dual :=
  catKLD (obs.map (fun o => (old_policy.probs o).map Dual.detach))
         (obs.map (fun o => new_policy.probs o))

/-- CNNCategoricalActor: `logits_cnn` (conv stack followed by the
`view(-1, start_dim)` flatten) and `logits_mlp`, as the functions they
compute on one observation. -/
structure CNNCategoricalActor (α : Type) where
  logits_cnn : α → List Dual
  logits_mlp : List Dual → List Dual

/-- `CNNCategoricalActor._distribution(obs).probs` for one observation. -/
noncomputable def CNNCategoricalActor.probs {α : Type}
    (a : CNNCategoricalActor α) (o : α) : List Dual :=
  softmaxD (a.logits_mlp (a.logits_cnn o))

/-- `CNNCategoricalActor.calculate_kl`: textually the same body as the MLP
version, with probabilities produced by the CNN pipeline. -/
noncomputable def CNNCategoricalActor.calculate_kl {α : Type}
    (old_policy new_policy : CNNCategoricalActor α) (obs : List α) : Dual :=
  catKLD (obs.map (fun o => (old_policy.probs o).map Dual.detach))
         (obs.map (fun o => new_policy.probs o))

/-- One summand of the Gaussian KL, exactly as written in the source:
`torch.log(std/std_old) + (std_old.pow(2)+(mu_old-mu).pow(2))/(2.0*std.pow(2)) - 0.5`. -/
noncomputable def klTermD (std_old std mu_old mu : Dual) : Dual :=
  Dual.sub
    (Dual.add (Dual.dlog (Dual.div std std_old))
      (Dual.div
        (Dual.add (Dual.mul std_old std_old)
          (Dual.mul (Dual.sub mu_old mu) (Dual.sub mu_old mu)))
        (Dual.mul (Dual.const 2) (Dual.mul std std))))
    (Dual.const (1/2))

/-- Shared body of the two identical Gaussian `calculate_kl` methods: the per
observation rows of old/new means, the broadcast old/new std vectors, the
elementwise KL term, `kl.sum(-1, keepdim=True).mean()` (sum over action
dimensions, then mean over the batch). -/
noncomputable def gaussKLD (mu0 mu1 : List (List Dual))
    (std0 std1 : List Dual) : Dual :=
  Dual.dmean ((mu0.zip mu1).map (fun pr =>
    Dual.dsum (List.zipWith
      (fun pmu ps => klTermD ps.1 ps.2 pmu.1 pmu.2)
      (pr.1.zip pr.2) (std0.zip std1))))

/-- MLPGaussianActor: its `mu_net` MLP and the learned `log_std` parameter
vector (state independent). -/
structure MLPGaussianActor (α : Type) where
  mu_net : α → List Dual
  log_std : List Dual

/-- `MLPGaussianActor.calculate_kl(old_policy, new_policy, obs)`:
`mu_old, std_old = old_policy.mu_net(obs).detach(), torch.exp(old_policy.log_std).detach()`,
`mu, std = new_policy.mu_net(obs), torch.exp(new_policy.log_std)`,
`kl = torch.log(std/std_old) + (std_old.pow(2)+(mu_old-mu).pow(2))/(2.0*std.pow(2)) - 0.5`,
`return kl.sum(-1, keepdim=True).mean()`. -/
noncomputable def MLPGaussianActor.calculate_kl {α : Type}
    (old_policy new_policy : MLPGaussianActor α) (obs : List α) : Dual :=
  gaussKLD (obs.map (fun o => (old_policy.mu_net o).map Dual.detach))
           (obs.map (fun o => new_policy.mu_net o))
           ((old_policy.log_std.map Dual.dexp).map Dual.detach)
           (new_policy.log_std.map Dual.dexp)

/-- CNNGaussianActor: `mu_cnn` (conv stack plus flatten), `mu_mlp`, and the
learned `log_std` vector. `forward_mu` composes the first two. -/
structure CNNGaussianActor (α : Type) where
  mu_cnn : α → List Dual
  mu_mlp : List Dual → List Dual
  log_std : List Dual

/-- `CNNGaussianActor.forward_mu(obs)` for one observation. -/
noncomputable def CNNGaussianActor.forward_mu {α : Type}
    (a : CNNGaussianActor α) (o : α) : List Dual :=
  a.mu_mlp (a.mu_cnn o)

/-- `CNNGaussianActor.calculate_kl`: same body as the MLP version with the
mean produced by `forward_mu`. -/
noncomputable def CNNGaussianActor.calculate_kl {α : Type}
    (old_policy new_policy : CNNGaussianActor α) (obs : List α) : Dual :=
  gaussKLD (obs.map (fun o => (old_policy.forward_mu o).map Dual.detach))
           (obs.map (fun o => new_policy.forward_mu o))
           ((old_policy.log_std.map Dual.dexp).map Dual.detach)
           (new_policy.log_std.map Dual.dexp)

/-! Spec-side formulas (written from the words of the specification, to be
compared with the embedded computations). -/

/-- Spec formula, categorical, one batch element:
`Σ_actions p_old(a) * log(p_old(a) / p_new(a))`. -/
noncomputable def specCatKLrow (p0 p1 : List ℝ) : ℝ :=
  (List.zipWith (fun a b => a * Real.log (a / b)) p0 p1).sum

/-- Spec formula, Gaussian, one batch element:
`log(sigma_new/sigma_old) + (sigma_old^2 + (mu_old - mu_new)^2) / (2*sigma_new^2) - 0.5`,
summed over action dimensions. -/
noncomputable def specGaussKLrow (mu0 mu1 sd0 sd1 : List ℝ) : ℝ :=
  (List.zipWith
    (fun pmu ps =>
      Real.log (ps.2 / ps.1) + (ps.1 ^ 2 + (pmu.1 - pmu.2) ^ 2) / (2 * ps.2 ^ 2)
        - 1 / 2)
    (mu0.zip mu1) (sd0.zip sd1)).sum

/-- Spec phrase "mean over the batch" of a list of per-element reals. -/
noncomputable def batchMean (l : List ℝ) : ℝ := l.sum / (l.length : ℝ)

/-! ### ActorCritic construction (src/Algorithms/trpo/core.py) -/

/-- A gym space as the constructors see it: a `Box` (continuous, has a shape
tuple), a `Discrete` (scalar shape `()`, has attribute `n`), or any other
space type (has a shape tuple, may or may not expose an attribute `n`). -/
inductive GymSpace where
  | box (shape : List Nat)
  | discrete (n : Nat)
  | other (shape : List Nat) (n : Option Nat)
deriving DecidableEq

/-- The `shape` attribute of a gym space (`Discrete.shape` is the empty
tuple). -/
def GymSpace.shape : GymSpace → List Nat
  | GymSpace.box s => s
  | GymSpace.discrete _ => []
  | GymSpace.other s _ => s

/-- The `n` attribute where it exists (`Discrete.n`; an `other` space may
carry one), otherwise an `AttributeError` would be raised on access. -/
def GymSpace.nAttr : GymSpace → Option Nat
  | GymSpace.box _ => none
  | GymSpace.discrete n => some n
  | GymSpace.other _ n => n

/-- Which actor pair the `if isinstance(...) / elif isinstance(...)` chain
constructs for `self.pi` and `self.pi_old`. -/
inductive ActorChoice where
  | gaussian (act_dim : Nat)
  | categorical (act_dim : Nat)
deriving DecidableEq

/-- Result of `MLPActorCritic.__init__` / `CNNActorCritic.__init__`: the
(possibly absent) actor pair and the always-constructed critic. `pi = none`
records that neither `isinstance` branch ran, so the attributes `self.pi`
and `self.pi_old` were never assigned. -/
structure ActorCritic where
  pi : Option ActorChoice
  pi_old : Option ActorChoice
  v : Unit
deriving DecidableEq

/-- `try: act_dim = action_space.shape[0] except IndexError: act_dim = action_space.n`:
indexing an empty shape tuple raises IndexError, caught and replaced by the
`n` attribute access, which raises AttributeError when absent. -/
def actDimOf (aspace : GymSpace) : Except PyError Nat :=
  match aspace.shape.head? with
  | some d => Except.ok d
  | none =>
    match aspace.nAttr with
    | some n => Except.ok n
    | none => Except.error PyError.attributeError

/-- Branch selection common to both constructors: `isinstance(space, Box)`
builds two Gaussian actors, `elif isinstance(space, Discrete)` builds two
categorical actors, and there is no `else` branch, so any other space type
leaves `self.pi` / `self.pi_old` unassigned. -/
def selectActor (aspace : GymSpace) (act_dim : Nat) : Option ActorChoice :=
  match aspace with
  | GymSpace.box _ => some (ActorChoice.gaussian act_dim)
  | GymSpace.discrete _ => some (ActorChoice.categorical act_dim)
  | GymSpace.other _ _ => none

/-- `MLPActorCritic.__init__(observation_space, action_space, ...)`:
`obs_dim = observation_space.shape[0]` (IndexError on an empty shape),
then the act_dim try/except, then the isinstance chain, then the critic. -/
def MLPActorCritic.init (ospace aspace : GymSpace) :
    Except PyError ActorCritic :=
  match ospace.shape.head? with
  | none => Except.error PyError.indexError
  | some _ =>
    match actDimOf aspace with
    | Except.error e => Except.error e
    | Except.ok act_dim =>
        Except.ok ⟨selectActor aspace act_dim, selectActor aspace act_dim, ()⟩

/-- `CNNActorCritic.__init__`: identical except that
`obs_dim = observation_space.shape` is taken whole (no indexing, so no
IndexError on the observation space). -/
def CNNActorCritic.init (_ospace aspace : GymSpace) :
    Except PyError ActorCritic :=
  match actDimOf aspace with
  | Except.error e => Except.error e
  | Except.ok act_dim =>
      Except.ok ⟨selectActor aspace act_dim, selectActor aspace act_dim, ()⟩

/-! ### Concrete instances used to exercise the theorems -/

/-- A concrete distinct transition over integer scalars. -/
def trEx (n : Int) : Transition Int := ⟨n, 10 * n, 20 * n, 30 * n, 0⟩

/-- A capacity-3 buffer holding three appended transitions. -/
def sampleSt : ReplayBuffer Int :=
  (ReplayBuffer.init 3).pushAll [trEx 1, trEx 2, trEx 3]

/-- A capacity-2 buffer holding one appended transition. -/
def bufEx : ReplayBuffer Int :=
  (ReplayBuffer.init 2).pushAll [trEx 1]

/-- Concrete MLP categorical actor (two actions, logits 0), carrying nonzero
tangents, playing the old policy. -/
noncomputable def catOldEx : MLPCategoricalActor Unit :=
  ⟨fun _ => [⟨0, 1⟩, ⟨0, 2⟩]⟩

/-- Same logit values as `catOldEx` with different tangents. -/
noncomputable def catOldEx' : MLPCategoricalActor Unit :=
  ⟨fun _ => [⟨0, 5⟩, ⟨0, 7⟩]⟩

/-- Concrete MLP categorical actor playing the new policy. -/
noncomputable def catNewEx : MLPCategoricalActor Unit :=
  ⟨fun _ => [⟨0, 3⟩, ⟨0, 4⟩]⟩

/-- Concrete CNN categorical actor (identity MLP head), old policy. -/
noncomputable def ccatOldEx : CNNCategoricalActor Unit :=
  ⟨fun _ => [⟨0, 1⟩, ⟨0, 2⟩], fun l => l⟩

/-- Same values as `ccatOldEx` with different tangents. -/
noncomputable def ccatOldEx' : CNNCategoricalActor Unit :=
  ⟨fun _ => [⟨0, 4⟩, ⟨0, 9⟩], fun l => l⟩

/-- Concrete CNN categorical actor, new policy. -/
noncomputable def ccatNewEx : CNNCategoricalActor Unit :=
  ⟨fun _ => [⟨0, 3⟩, ⟨0, 5⟩], fun l => l⟩

/-- Concrete MLP Gaussian actor (one action dimension), old policy. -/
noncomputable def gaussOldEx : MLPGaussianActor Unit :=
  ⟨fun _ => [⟨0, 1⟩], [⟨0, 2⟩]⟩

/-- Same values as `gaussOldEx` with different tangents. -/
noncomputable def gaussOldEx' : MLPGaussianActor Unit :=
  ⟨fun _ => [⟨0, 6⟩], [⟨0, 8⟩]⟩

/-- Concrete MLP Gaussian actor, new policy. -/
noncomputable def gaussNewEx : MLPGaussianActor Unit :=
  ⟨fun _ => [⟨1, 0⟩], [⟨0, 0⟩]⟩

/-- Concrete CNN Gaussian actor (identity MLP head), old policy. -/
noncomputable def cgaussOldEx : CNNGaussianActor Unit :=
  ⟨fun _ => [⟨0, 1⟩], fun l => l, [⟨0, 2⟩]⟩

/-- Same values as `cgaussOldEx` with different tangents. -/
noncomputable def cgaussOldEx' : CNNGaussianActor Unit :=
  ⟨fun _ => [⟨0, 3⟩], fun l => l, [⟨0, 4⟩]⟩

/-- Concrete CNN Gaussian actor, new policy. -/
noncomputable def cgaussNewEx : CNNGaussianActor Unit :=
  ⟨fun _ => [⟨1, 0⟩], fun l => l, [⟨0, 0⟩]⟩

/-! ### Helper lemmas: replay buffer -/

/-- Appending distributes over a snoc of the transition list. -/
lemma pushAll_snoc {α : Type} (st : ReplayBuffer α) (ts : List (Transition α))
    (t : Transition α) :
    st.pushAll (ts ++ [t]) = (st.pushAll ts).push t := by
  simp [ReplayBuffer.pushAll, List.foldl_append]

/-- Full characterization of a buffer built by `__init__` followed by a
sequence of `append` calls: the deque holds exactly the most recent
`capacity` transitions in insertion order, the count is the saturating
number of appends, and the capacity fields are untouched. -/
lemma pushAll_spec {α : Type} (c : Nat) (ts : List (Transition α)) :
    ((ReplayBuffer.init c : ReplayBuffer α).pushAll ts).buffer.items
        = ts.drop (ts.length - c)
    ∧ ((ReplayBuffer.init c : ReplayBuffer α).pushAll ts).size = min ts.length c
    ∧ ((ReplayBuffer.init c : ReplayBuffer α).pushAll ts).max_size = c
    ∧ ((ReplayBuffer.init c : ReplayBuffer α).pushAll ts).buffer.maxlen = c := by
  induction ts using List.reverseRecOn with
  | nil => simp [ReplayBuffer.pushAll, ReplayBuffer.init]
  | append_singleton ts t ih =>
    obtain ⟨hitems, hsize, hmax, hlen⟩ := ih
    rw [pushAll_snoc]
    refine ⟨?_, ?_, hmax, hlen⟩
    · rw [ReplayBuffer.push, Deque.push, hlen, hitems]
      have hlapp : (ts ++ [t]).length = ts.length + 1 := by simp
      rcases Nat.lt_or_ge ts.length c with h | h
      · have e1 : ts.length - c = 0 := by omega
        have e2 : ts.length + 1 - c = 0 := by omega
        simp [e1, e2, hlapp]
      · rcases Nat.eq_zero_or_pos c with hc | hc
        · subst hc
          simp
        · have h4 : (ts.drop (ts.length - c)).length = c := by
            rw [List.length_drop]
            omega
          have hside1 : 1 ≤ (ts.drop (ts.length - c)).length := by
            rw [h4]
            omega
          have hside2 : ts.length + 1 - c ≤ ts.length := by omega
          have e3 : c + 1 - c = 1 := by omega
          have e5 : ts.length - c + 1 = ts.length + 1 - c := by omega
          rw [h4, hlapp, e3, List.drop_append_of_le_length hside1,
              List.drop_append_of_le_length hside2, List.drop_drop, e5]
    · rw [ReplayBuffer.push, hsize, hmax]
      simp only [List.length_append, List.length_singleton]
      rcases Nat.lt_or_ge ts.length c with h | h
      · rw [if_pos (by omega)]
        omega
      · rw [if_neg (by omega)]
        omega

/-- A draw without replacement of `k` indices from a population of `pop`
cannot exceed the population. -/
lemma validDraw_le (pop k : Nat) (idxs : List Nat) (h : validDraw pop k idxs) :
    k ≤ pop := by
  obtain ⟨hlen, hnd, hmem⟩ := h
  rw [← hlen]
  calc idxs.length = idxs.toFinset.card := (List.toFinset_card_of_nodup hnd).symm
    _ ≤ (Finset.range pop).card := by
        apply Finset.card_le_card
        intro x hx
        rw [List.mem_toFinset] at hx
        rw [Finset.mem_range]
        exact hmem x hx
    _ = pop := Finset.card_range pop

/-- In-range index gathering succeeds and equals the `getD` gather. -/
lemma gatherIdx_eq_map {γ : Type} [Inhabited γ] (l : List γ) (idxs : List Nat)
    (h : ∀ i ∈ idxs, i < l.length) :
    gatherIdx l idxs = some (idxs.map (fun i => l.getD i default)) := by
  induction idxs with
  | nil => rfl
  | cons i is ih =>
    have hi : i < l.length := h i (by simp)
    have hrest : ∀ j ∈ is, j < l.length := fun j hj => h j (by simp [hj])
    simp [gatherIdx, ih hrest, List.getElem?_eq_getElem hi,
      List.getD_eq_getElem?_getD]

/-- zip(*batch) on a nonempty batch of stored 5-element transition rows is
exactly the five field columns in field order. -/
lemma zipStar_transitions {α : Type} (l : List (Transition α)) (hl : l ≠ []) :
    zipStar (l.map Transition.toList)
      = [l.map Transition.state, l.map Transition.action,
         l.map Transition.reward, l.map Transition.next_state,
         l.map Transition.terminal] := by
  induction l with
  | nil => exact absurd rfl hl
  | cons t rest ih =>
    cases rest with
    | nil => simp [zipStar, Transition.toList]
    | cons t2 r2 =>
      have hstep : zipStar ((t :: t2 :: r2).map Transition.toList)
          = List.zipWith (fun x col => x :: col) (Transition.toList t)
              (zipStar ((t2 :: r2).map Transition.toList)) := rfl
      rw [hstep, ih (by simp)]
      simp [Transition.toList]

/-! ### Claim theorems: replay buffer -/

/-- C1 (code bug): the current-size operation cannot return the count, because
the instance attribute `self.size` set by `__init__` shadows the `size` method:
calling `buf.size()` raises TypeError for every buffer state. The count value
itself, and the shadowed method body `len(self.buffer)`, both equal the
saturating number of appends, as the claim describes. -/
theorem c1_current_size {α : Type} (st : ReplayBuffer α) (c : Nat)
    (ts : List (Transition α)) :
    st.callSize = Except.error PyError.typeError
    ∧ ((ReplayBuffer.init c : ReplayBuffer α).pushAll ts).size = min ts.length c
    ∧ ((ReplayBuffer.init c : ReplayBuffer α).pushAll ts).sizeMethod
        = min ts.length c := by
  refine ⟨rfl, (pushAll_spec c ts).2.1, ?_⟩
  have h := (pushAll_spec c ts).1
  rw [ReplayBuffer.sizeMethod, h, List.length_drop]
  omega

/-- C4: for every capacity `c` and every sequence of appends on a fresh
buffer, the count is the saturating number of appends (so it never exceeds
`c`), and the deque holds exactly the most recent `c` transitions in
insertion order (the leftmost, oldest entry is evicted on append at
capacity); in particular capacity 3 with T1..T5 yields [T3, T4, T5]. -/
theorem c4_fifo_eviction {α : Type} (c : Nat) (ts : List (Transition α)) :
    ((ReplayBuffer.init c : ReplayBuffer α).pushAll ts).size = min ts.length c
    ∧ ((ReplayBuffer.init c : ReplayBuffer α).pushAll ts).size ≤ c
    ∧ ((ReplayBuffer.init c : ReplayBuffer α).pushAll ts).buffer.items
        = ts.drop (ts.length - c)
    ∧ ((ReplayBuffer.init 3 : ReplayBuffer Int).pushAll
        [trEx 1, trEx 2, trEx 3, trEx 4, trEx 5]).buffer.items
        = [trEx 3, trEx 4, trEx 5]
    ∧ ((ReplayBuffer.init 3 : ReplayBuffer Int).pushAll
        [trEx 1, trEx 2, trEx 3, trEx 4, trEx 5]).size = 3 := by
  obtain ⟨h1, h2, h3, h4⟩ := pushAll_spec c ts
  refine ⟨h2, ?_, h1, by decide, by decide⟩
  rw [h2]
  exact Nat.min_le_right _ _

/-- C10: `load` replaces only the stored deque; the count and capacity keep
their pre-load values (the count is never recomputed from the loaded
contents), so loading a saved nonempty buffer into a fresh buffer leaves the
count at 0, and sampling from it then fails for every nonzero batch size
because the valid range `[0, count)` is still empty. -/
theorem c10_load_frame {α β : Type} (st : ReplayBuffer α)
    (d : Deque (Transition α)) (c : Nat) (b : ReplayBuffer α) :
    (st.load d).1.size = st.size
    ∧ (st.load d).1.max_size = st.max_size
    ∧ (st.load d).1.buffer = d
    ∧ ((ReplayBuffer.init c : ReplayBuffer α).load b.save).1.size = 0
    ∧ (∀ (cast : α → β) (k : Int) (idxs : List Nat), k ≠ 0 →
        ((ReplayBuffer.init c : ReplayBuffer α).load b.save).1.sample cast k idxs
          = Except.error SampleError.popTooSmall) := by
  refine ⟨rfl, rfl, rfl, rfl, ?_⟩
  intro cast k idxs hk
  simp [ReplayBuffer.sample, ReplayBuffer.load, ReplayBuffer.init,
    choiceCheck, hk]

/-- Witness for C10: a nonempty capacity-2 buffer saved and loaded into a
fresh capacity-1 buffer; sampling 5 items then fails on the empty range. -/
theorem c10_load_frame_witness :
    ((5 : Int) ≠ 0)
    ∧ (((ReplayBuffer.init 1 : ReplayBuffer Int).load bufEx.save).1.sample
        (fun x => x) 5 [] = Except.error SampleError.popTooSmall) := by
  refine ⟨by decide, ?_⟩
  exact (c10_load_frame (ReplayBuffer.init 1) bufEx.save 1 bufEx).2.2.2.2
    (fun x => x) 5 [] (by decide)

/-- C5: saving a buffer whose deque was built with `maxlen = max_size` and
loading it into a fresh buffer of identical capacity succeeds and reproduces
the identical ordered transition sequence; loading into a buffer of any other
capacity fails with the capacity-mismatch assertion. -/
theorem c5_save_load {α : Type} (b : ReplayBuffer α) (c : Nat)
    (hb : b.buffer.maxlen = b.max_size) :
    (b.max_size = c →
        ((ReplayBuffer.init c : ReplayBuffer α).load b.save).2 = none
        ∧ ((ReplayBuffer.init c : ReplayBuffer α).load b.save).1.buffer.items
            = b.buffer.items)
    ∧ (b.max_size ≠ c →
        ((ReplayBuffer.init c : ReplayBuffer α).load b.save).2
          = some LoadError.capacityMismatch) := by
  constructor
  · intro hc
    refine ⟨?_, rfl⟩
    simp [ReplayBuffer.load, ReplayBuffer.save, ReplayBuffer.init, hb, hc]
  · intro hc
    simp [ReplayBuffer.load, ReplayBuffer.save, ReplayBuffer.init, hb, hc]

/-- Witness for C5: round trip of a one-entry capacity-2 buffer at matching
capacity 2, and the rejected load at capacity 5. -/
theorem c5_save_load_witness :
    bufEx.buffer.maxlen = bufEx.max_size
    ∧ ((ReplayBuffer.init 2 : ReplayBuffer Int).load bufEx.save).2 = none
    ∧ ((ReplayBuffer.init 2 : ReplayBuffer Int).load bufEx.save).1.buffer.items
        = bufEx.buffer.items
    ∧ ((ReplayBuffer.init 5 : ReplayBuffer Int).load bufEx.save).2
        = some LoadError.capacityMismatch := by
  refine ⟨by decide, ?_, ?_, ?_⟩
  · exact ((c5_save_load bufEx 2 (by decide)).1 (by decide)).1
  · exact ((c5_save_load bufEx 2 (by decide)).1 (by decide)).2
  · exact (c5_save_load bufEx 5 (by decide)).2 (by decide)

/-- C2 (amended): sampling more than `count` items fails (the numpy check
that the spec calls InsufficientDataError: population-too-small when the
buffer is empty, larger-sample-than-population otherwise); `sample(0)`
returns the empty result; but a negative batch size fails with a ValueError
(negative dimensions) instead of returning an empty result. -/
theorem c2_sample_guard {α β : Type} (st : ReplayBuffer α) (cast : α → β)
    (k : Int) (idxs : List Nat) :
    ((st.size : Int) < k →
        st.sample cast k idxs
          = Except.error
              (if st.size = 0 then SampleError.popTooSmall
               else SampleError.tooLargeSample))
    ∧ (k = 0 → idxs = [] → st.sample cast k idxs = Except.ok [])
    ∧ (k < 0 →
        st.sample cast k idxs
          = Except.error
              (if st.size = 0 then SampleError.popTooSmall
               else SampleError.negDimensions)) := by
  refine ⟨?_, ?_, ?_⟩
  · intro hk
    rcases Nat.eq_zero_or_pos st.size with h0 | h0
    · have hk0 : k ≠ 0 := by omega
      simp [ReplayBuffer.sample, choiceCheck, h0, hk0]
    · have h1 : ¬ st.size = 0 := by omega
      simp [ReplayBuffer.sample, choiceCheck, hk, h1]
  · intro hk hidx
    subst hk
    subst hidx
    have h2 : ¬ ((st.size : Int) < 0) := by omega
    simp [ReplayBuffer.sample, choiceCheck, h2, gatherIdx, zipStar]
  · intro hk
    rcases Nat.eq_zero_or_pos st.size with h0 | h0
    · have hk0 : k ≠ 0 := by omega
      simp [ReplayBuffer.sample, choiceCheck, h0, hk0]
    · have h1 : ¬ ((st.size : Int) < k) := by omega
      have h2 : ¬ st.size = 0 := by omega
      simp [ReplayBuffer.sample, choiceCheck, hk, h1, h2]

/-- Witness for C2 (amended): on a buffer holding 3 entries, sample(5) fails
with the larger-than-population error and sample(0) is the empty result. -/
theorem c2_sample_guard_witness :
    ((3 : Int) < 5)
    ∧ sampleSt.sample (fun x => x) 5 [] = Except.error SampleError.tooLargeSample
    ∧ sampleSt.sample (fun x => x) 0 [] = Except.ok [] := by
  refine ⟨by decide, ?_, ?_⟩
  · exact (c2_sample_guard sampleSt (fun x => x) 5 []).1 (by decide)
  · exact (c2_sample_guard sampleSt (fun x => x) 0 []).2.1 rfl rfl

/-- C2 counterexample: the claim says a non-positive batch size returns an
empty result, but on a buffer with three stored entries `sample(-1)` raises
the numpy negative-dimensions ValueError and returns nothing. -/
theorem c2_negative_counterexample :
    sampleSt.sample (fun x => x) (-1) []
        = Except.error SampleError.negDimensions
    ∧ sampleSt.sample (fun x => x) (-1) [] ≠ Except.ok [] := by
  have e : sampleSt.sample (fun x => x) (-1) []
      = Except.error SampleError.negDimensions := rfl
  refine ⟨e, ?_⟩
  rw [e]
  simp

/-- C3: for every buffer and every draw the no-replacement index oracle can
produce (k distinct indices inside `[0, count)`, with `count` within the
stored deque), `sample(k)` with `k ≥ 1` succeeds and returns exactly the five
field columns (states, actions, rewards, next states, terminals) of the drawn
transitions, in draw order — the structure-of-arrays transpose — each column
of length k with the float32 promotion `cast` applied elementwise. -/
theorem c3_sample_transpose {α β : Type} [Inhabited α] (st : ReplayBuffer α)
    (cast : α → β) (k : Nat) (idxs : List Nat) (hk : 1 ≤ k)
    (hdraw : validDraw st.size k idxs)
    (hinv : st.size ≤ st.buffer.items.length) :
    st.sample cast (k : Int) idxs
      = Except.ok
          [idxs.map (fun i => cast (st.buffer.items.getD i default).state),
           idxs.map (fun i => cast (st.buffer.items.getD i default).action),
           idxs.map (fun i => cast (st.buffer.items.getD i default).reward),
           idxs.map (fun i => cast (st.buffer.items.getD i default).next_state),
           idxs.map (fun i => cast (st.buffer.items.getD i default).terminal)]
    ∧ ∀ col ∈
        [idxs.map (fun i => cast (st.buffer.items.getD i default).state),
         idxs.map (fun i => cast (st.buffer.items.getD i default).action),
         idxs.map (fun i => cast (st.buffer.items.getD i default).reward),
         idxs.map (fun i => cast (st.buffer.items.getD i default).next_state),
         idxs.map (fun i => cast (st.buffer.items.getD i default).terminal)],
        col.length = k := by
  have hksize : k ≤ st.size := validDraw_le _ _ _ hdraw
  obtain ⟨hlen, hnd, hmem⟩ := hdraw
  constructor
  · have hchk : choiceCheck st.size (k : Int) = Except.ok () := by
      have h1 : ¬ (st.size = 0 ∧ (k : Int) ≠ 0) := by omega
      have h2 : ¬ ((st.size : Int) < (k : Int)) := by omega
      have h3 : ¬ ((k : Int) < 0) := by omega
      rw [choiceCheck, if_neg h1, if_neg h2, if_neg h3]
    have hmemlen : ∀ i ∈ idxs, i < st.buffer.items.length :=
      fun i hi => lt_of_lt_of_le (hmem i hi) hinv
    have hmapM := gatherIdx_eq_map st.buffer.items idxs hmemlen
    have hne : idxs.map (fun i => st.buffer.items.getD i default) ≠ [] := by
      intro hcontra
      have : idxs = [] := List.map_eq_nil_iff.mp hcontra
      rw [this] at hlen
      simp at hlen
      omega
    rw [ReplayBuffer.sample, hchk, hmapM]
    simp only [zipStar_transitions _ hne]
    simp [List.map_map, Function.comp]
  · intro col hcol
    simp only [List.mem_cons, List.mem_singleton] at hcol
    rcases hcol with h | h | h | h | h | h
    all_goals first
      | (rw [h, List.length_map, hlen])
      | cases h

/-- Witness for C3: drawing indices 2 and 0 from the 3-entry buffer yields
the five field columns of T3 and T1, in draw order. -/
theorem c3_sample_transpose_witness :
    (1 ≤ 2) ∧ validDraw sampleSt.size 2 [2, 0]
    ∧ sampleSt.sample (fun x => x) ((2 : Nat) : Int) [2, 0]
        = Except.ok [[3, 1], [30, 10], [60, 20], [90, 30], [0, 0]] := by
  refine ⟨by decide, by decide, ?_⟩
  have h := (c3_sample_transpose sampleSt (fun x => x) 2 [2, 0]
    (by decide) (by decide) (by decide)).1
  exact h.trans rfl

/-! ### Helper lemmas: dual numbers and the KL computations -/

@[simp] lemma Dual.add_val (x y : Dual) : (Dual.add x y).val = x.val + y.val := rfl

@[simp] lemma Dual.sub_val (x y : Dual) : (Dual.sub x y).val = x.val - y.val := rfl

@[simp] lemma Dual.mul_val (x y : Dual) : (Dual.mul x y).val = x.val * y.val := rfl

@[simp] lemma Dual.div_val (x y : Dual) : (Dual.div x y).val = x.val / y.val := rfl

@[simp] lemma Dual.dlog_val (x : Dual) : (Dual.dlog x).val = Real.log x.val := rfl

@[simp] lemma Dual.dexp_val (x : Dual) : (Dual.dexp x).val = Real.exp x.val := rfl

@[simp] lemma Dual.const_val (r : ℝ) : (Dual.const r).val = r := rfl

@[simp] lemma Dual.detach_val (x : Dual) : (Dual.detach x).val = x.val := rfl

@[simp] lemma Dual.dsum_val (l : List Dual) :
    (Dual.dsum l).val = (l.map Dual.val).sum := by
  induction l with
  | nil => simp [Dual.dsum, Dual.const]
  | cons x xs ih => simp [Dual.dsum, Dual.add] at ih ⊢; rw [ih]

@[simp] lemma Dual.dmean_val (l : List Dual) :
    (Dual.dmean l).val = (l.map Dual.val).sum / (l.length : ℝ) := by
  simp [Dual.dmean]

/-- The values of a softmax row are the real softmax of the input values. -/
lemma softmaxD_map_val (l : List Dual) :
    (softmaxD l).map Dual.val = softmaxR (l.map Dual.val) := by
  simp only [softmaxD, softmaxR, List.map_map]
  apply List.map_congr_left
  intro a _
  show ((Dual.dexp a).div (Dual.dsum (l.map Dual.dexp))).val
      = Real.exp a.val / (List.map (Real.exp ∘ Dual.val) l).sum
  rw [Dual.div_val, Dual.dexp_val, Dual.dsum_val, List.map_map]
  rfl

/-- Detaching is determined by values: two rows with equal value lists have
equal detached rows (the tangents are erased either way). -/
lemma map_detach_congr (l₁ l₂ : List Dual)
    (h : l₁.map Dual.val = l₂.map Dual.val) :
    l₁.map Dual.detach = l₂.map Dual.detach := by
  induction l₁ generalizing l₂ with
  | nil => cases l₂ with
    | nil => rfl
    | cons y ys => simp at h
  | cons x xs ih =>
    cases l₂ with
    | nil => simp at h
    | cons y ys =>
      simp only [List.map_cons, List.cons.injEq] at h ⊢
      exact ⟨by simp [Dual.detach, h.1], ih ys h.2⟩

/-- Value of one categorical KL row term. -/
lemma catRow_val (r0 r1 : List Dual) :
    (Dual.dsum (List.zipWith
        (fun a b => Dual.mul a (Dual.dlog (Dual.div a b))) r0 r1)).val
      = specCatKLrow (r0.map Dual.val) (r1.map Dual.val) := by
  rw [specCatKLrow, Dual.dsum_val]
  congr 1
  induction r0 generalizing r1 with
  | nil => simp
  | cons x xs ih =>
    cases r1 with
    | nil => simp
    | cons y ys => simp [ih]

/-- Value of the shared categorical KL computation. -/
lemma catKLD_val (p0 p1 : List (List Dual)) :
    (catKLD p0 p1).val
      = batchMean ((p0.zip p1).map
          (fun pr => specCatKLrow (pr.1.map Dual.val) (pr.2.map Dual.val))) := by
  rw [catKLD, Dual.dmean_val, batchMean]
  simp only [List.map_map, List.length_map, List.length_zip]
  congr 1
  refine congrArg List.sum (List.map_congr_left ?_)
  intro pr _
  exact catRow_val pr.1 pr.2

/-- Value of one Gaussian KL summand. -/
lemma klTermD_val (so sn muo mun : Dual) :
    (klTermD so sn muo mun).val
      = Real.log (sn.val / so.val)
        + (so.val ^ 2 + (muo.val - mun.val) ^ 2) / (2 * sn.val ^ 2) - 1 / 2 := by
  simp [klTermD]
  ring_nf

/-- Value of one Gaussian KL row (sum over action dimensions). -/
lemma gaussRow_val (mu0r mu1r sd0 sd1 : List Dual) :
    (Dual.dsum (List.zipWith
        (fun pmu ps => klTermD ps.1 ps.2 pmu.1 pmu.2)
        (mu0r.zip mu1r) (sd0.zip sd1))).val
      = specGaussKLrow (mu0r.map Dual.val) (mu1r.map Dual.val)
          (sd0.map Dual.val) (sd1.map Dual.val) := by
  rw [specGaussKLrow, Dual.dsum_val]
  congr 1
  induction mu0r generalizing mu1r sd0 sd1 with
  | nil => cases mu1r <;> simp
  | cons x xs ih =>
    cases mu1r with
    | nil => simp
    | cons y ys =>
      cases sd0 with
      | nil => simp
      | cons s0 s0s =>
        cases sd1 with
        | nil => simp
        | cons s1 s1s => simp [ih, klTermD_val]

/-- Value of the shared Gaussian KL computation. -/
lemma gaussKLD_val (mu0 mu1 : List (List Dual)) (std0 std1 : List Dual) :
    (gaussKLD mu0 mu1 std0 std1).val
      = batchMean ((mu0.zip mu1).map
          (fun pr => specGaussKLrow (pr.1.map Dual.val) (pr.2.map Dual.val)
            (std0.map Dual.val) (std1.map Dual.val))) := by
  rw [gaussKLD, Dual.dmean_val, batchMean]
  simp only [List.map_map, List.length_map, List.length_zip]
  congr 1
  refine congrArg List.sum (List.map_congr_left ?_)
  intro pr _
  exact gaussRow_val pr.1 pr.2 std0 std1

/-- Value of the MLP categorical `calculate_kl` as a real-number formula. -/
lemma mlpCat_kl_val {α : Type} (old new : MLPCategoricalActor α)
    (obs : List α) :
    (MLPCategoricalActor.calculate_kl old new obs).val
      = batchMean (obs.map (fun o =>
          specCatKLrow (softmaxR ((old.logits_net o).map Dual.val))
                       (softmaxR ((new.logits_net o).map Dual.val)))) := by
  rw [MLPCategoricalActor.calculate_kl, catKLD_val, List.zip_map',
    List.map_map]
  refine congrArg batchMean (List.map_congr_left ?_)
  intro o _
  simp only [Function.comp]
  have e1 : ((old.probs o).map Dual.detach).map Dual.val
      = (old.probs o).map Dual.val := by
    rw [List.map_map]
    rfl
  rw [e1, MLPCategoricalActor.probs, MLPCategoricalActor.probs,
    softmaxD_map_val, softmaxD_map_val]

/-- Value of the CNN categorical `calculate_kl` as a real-number formula. -/
lemma cnnCat_kl_val {α : Type} (old new : CNNCategoricalActor α)
    (obs : List α) :
    (CNNCategoricalActor.calculate_kl old new obs).val
      = batchMean (obs.map (fun o =>
          specCatKLrow
            (softmaxR ((old.logits_mlp (old.logits_cnn o)).map Dual.val))
            (softmaxR ((new.logits_mlp (new.logits_cnn o)).map Dual.val)))) := by
  rw [CNNCategoricalActor.calculate_kl, catKLD_val, List.zip_map',
    List.map_map]
  refine congrArg batchMean (List.map_congr_left ?_)
  intro o _
  simp only [Function.comp]
  have e1 : ((old.probs o).map Dual.detach).map Dual.val
      = (old.probs o).map Dual.val := by
    rw [List.map_map]
    rfl
  rw [e1, CNNCategoricalActor.probs, CNNCategoricalActor.probs,
    softmaxD_map_val, softmaxD_map_val]

/-- The categorical KL is insensitive to the old policy's tangents: only the
old network's values enter, through the detached probabilities. -/
lemma mlpCat_kl_old_vals {α : Type} (old old' new : MLPCategoricalActor α)
    (obs : List α)
    (h : ∀ o, (old'.logits_net o).map Dual.val
        = (old.logits_net o).map Dual.val) :
    MLPCategoricalActor.calculate_kl old' new obs
      = MLPCategoricalActor.calculate_kl old new obs := by
  have harg : obs.map (fun o => (old'.probs o).map Dual.detach)
      = obs.map (fun o => (old.probs o).map Dual.detach) := by
    refine List.map_congr_left ?_
    intro o _
    apply map_detach_congr
    rw [MLPCategoricalActor.probs, MLPCategoricalActor.probs,
      softmaxD_map_val, softmaxD_map_val, h o]
  rw [MLPCategoricalActor.calculate_kl, MLPCategoricalActor.calculate_kl,
    harg]

/-- CNN version of `mlpCat_kl_old_vals`. -/
lemma cnnCat_kl_old_vals {α : Type} (old old' new : CNNCategoricalActor α)
    (obs : List α)
    (h : ∀ o, (old'.logits_mlp (old'.logits_cnn o)).map Dual.val
        = (old.logits_mlp (old.logits_cnn o)).map Dual.val) :
    CNNCategoricalActor.calculate_kl old' new obs
      = CNNCategoricalActor.calculate_kl old new obs := by
  have harg : obs.map (fun o => (old'.probs o).map Dual.detach)
      = obs.map (fun o => (old.probs o).map Dual.detach) := by
    refine List.map_congr_left ?_
    intro o _
    apply map_detach_congr
    rw [CNNCategoricalActor.probs, CNNCategoricalActor.probs,
      softmaxD_map_val, softmaxD_map_val, h o]
  rw [CNNCategoricalActor.calculate_kl, CNNCategoricalActor.calculate_kl,
    harg]

/-- Value of the MLP Gaussian `calculate_kl` as a real-number formula, with
the standard deviations the exponentials of the log-std values. -/
lemma mlpGauss_kl_val {α : Type} (old new : MLPGaussianActor α)
    (obs : List α) :
    (MLPGaussianActor.calculate_kl old new obs).val
      = batchMean (obs.map (fun o =>
          specGaussKLrow ((old.mu_net o).map Dual.val)
            ((new.mu_net o).map Dual.val)
            (old.log_std.map (fun d => Real.exp d.val))
            (new.log_std.map (fun d => Real.exp d.val)))) := by
  rw [MLPGaussianActor.calculate_kl, gaussKLD_val, List.zip_map',
    List.map_map]
  refine congrArg batchMean (List.map_congr_left ?_)
  intro o _
  simp only [Function.comp]
  have e1 : ((old.mu_net o).map Dual.detach).map Dual.val
      = (old.mu_net o).map Dual.val := by
    rw [List.map_map]
    rfl
  have e2 : ((old.log_std.map Dual.dexp).map Dual.detach).map Dual.val
      = old.log_std.map (fun d => Real.exp d.val) := by
    rw [List.map_map, List.map_map]
    rfl
  have e3 : (new.log_std.map Dual.dexp).map Dual.val
      = new.log_std.map (fun d => Real.exp d.val) := by
    rw [List.map_map]
    rfl
  rw [e1, e2, e3]

/-- CNN version of `mlpGauss_kl_val`, with the mean from `forward_mu`. -/
lemma cnnGauss_kl_val {α : Type} (old new : CNNGaussianActor α)
    (obs : List α) :
    (CNNGaussianActor.calculate_kl old new obs).val
      = batchMean (obs.map (fun o =>
          specGaussKLrow ((old.forward_mu o).map Dual.val)
            ((new.forward_mu o).map Dual.val)
            (old.log_std.map (fun d => Real.exp d.val))
            (new.log_std.map (fun d => Real.exp d.val)))) := by
  rw [CNNGaussianActor.calculate_kl, gaussKLD_val, List.zip_map',
    List.map_map]
  refine congrArg batchMean (List.map_congr_left ?_)
  intro o _
  simp only [Function.comp]
  have e1 : ((old.forward_mu o).map Dual.detach).map Dual.val
      = (old.forward_mu o).map Dual.val := by
    rw [List.map_map]
    rfl
  have e2 : ((old.log_std.map Dual.dexp).map Dual.detach).map Dual.val
      = old.log_std.map (fun d => Real.exp d.val) := by
    rw [List.map_map, List.map_map]
    rfl
  have e3 : (new.log_std.map Dual.dexp).map Dual.val
      = new.log_std.map (fun d => Real.exp d.val) := by
    rw [List.map_map]
    rfl
  rw [e1, e2, e3]

/-- The Gaussian KL is insensitive to the old policy's tangents (mean network
and log-std): both old operands are detached. -/
lemma mlpGauss_kl_old_vals {α : Type} (old old' new : MLPGaussianActor α)
    (obs : List α)
    (h1 : ∀ o, (old'.mu_net o).map Dual.val = (old.mu_net o).map Dual.val)
    (h2 : old'.log_std.map Dual.val = old.log_std.map Dual.val) :
    MLPGaussianActor.calculate_kl old' new obs
      = MLPGaussianActor.calculate_kl old new obs := by
  have hmu : obs.map (fun o => (old'.mu_net o).map Dual.detach)
      = obs.map (fun o => (old.mu_net o).map Dual.detach) := by
    refine List.map_congr_left ?_
    intro o _
    exact map_detach_congr _ _ (h1 o)
  have hexp : (old'.log_std.map Dual.dexp).map Dual.val
      = (old.log_std.map Dual.dexp).map Dual.val := by
    have h3 := congrArg (List.map Real.exp) h2
    rw [List.map_map, List.map_map] at h3
    rw [List.map_map, List.map_map]
    exact h3
  have hstd : (old'.log_std.map Dual.dexp).map Dual.detach
      = (old.log_std.map Dual.dexp).map Dual.detach :=
    map_detach_congr _ _ hexp
  rw [MLPGaussianActor.calculate_kl, MLPGaussianActor.calculate_kl, hmu, hstd]

/-- CNN version of `mlpGauss_kl_old_vals`. -/
lemma cnnGauss_kl_old_vals {α : Type} (old old' new : CNNGaussianActor α)
    (obs : List α)
    (h1 : ∀ o, (old'.forward_mu o).map Dual.val
        = (old.forward_mu o).map Dual.val)
    (h2 : old'.log_std.map Dual.val = old.log_std.map Dual.val) :
    CNNGaussianActor.calculate_kl old' new obs
      = CNNGaussianActor.calculate_kl old new obs := by
  have hmu : obs.map (fun o => (old'.forward_mu o).map Dual.detach)
      = obs.map (fun o => (old.forward_mu o).map Dual.detach) := by
    refine List.map_congr_left ?_
    intro o _
    exact map_detach_congr _ _ (h1 o)
  have hexp : (old'.log_std.map Dual.dexp).map Dual.val
      = (old.log_std.map Dual.dexp).map Dual.val := by
    have h3 := congrArg (List.map Real.exp) h2
    rw [List.map_map, List.map_map] at h3
    rw [List.map_map, List.map_map]
    exact h3
  have hstd : (old'.log_std.map Dual.dexp).map Dual.detach
      = (old.log_std.map Dual.dexp).map Dual.detach :=
    map_detach_congr _ _ hexp
  rw [CNNGaussianActor.calculate_kl, CNNGaussianActor.calculate_kl, hmu, hstd]

/-- The mean of a list of zeros is zero. -/
lemma batchMean_zeros (l : List ℝ) (h : ∀ x ∈ l, x = 0) : batchMean l = 0 := by
  rw [batchMean, List.sum_eq_zero h, zero_div]

/-- Every softmax output is strictly positive. -/
lemma softmaxR_pos (m : List ℝ) : ∀ x ∈ softmaxR m, 0 < x := by
  intro x hx
  simp only [softmaxR, List.map_map, List.mem_map, Function.comp] at hx
  obtain ⟨a, _, rfl⟩ := hx
  have hne : m.map Real.exp ≠ [] := by
    simp only [ne_eq, List.map_eq_nil_iff]
    rintro rfl
    simp at *
  have hS : 0 < (m.map Real.exp).sum := by
    apply List.sum_pos
    · intro b hb
      simp only [List.mem_map] at hb
      obtain ⟨c, _, rfl⟩ := hb
      exact Real.exp_pos c
    · exact hne
  exact div_pos (Real.exp_pos a) hS

/-- The categorical KL row formula on a positive row against itself is 0. -/
lemma specCatKLrow_self (p : List ℝ) (hp : ∀ x ∈ p, 0 < x) :
    specCatKLrow p p = 0 := by
  induction p with
  | nil => simp [specCatKLrow]
  | cons x xs ih =>
    have hx : (0:ℝ) < x := hp x (by simp)
    have ih2 := ih (fun y hy => hp y (by simp [hy]))
    rw [specCatKLrow] at ih2 ⊢
    simp only [List.zipWith_cons_cons, List.sum_cons]
    rw [div_self (ne_of_gt hx), Real.log_one, mul_zero, zero_add]
    exact ih2

/-- The Gaussian KL row formula with identical means and (positive) standard
deviations is 0. -/
lemma specGaussKLrow_self (mu sd : List ℝ) (hsd : ∀ s ∈ sd, 0 < s) :
    specGaussKLrow mu mu sd sd = 0 := by
  induction mu generalizing sd with
  | nil => simp [specGaussKLrow]
  | cons x xs ih =>
    cases sd with
    | nil => simp [specGaussKLrow]
    | cons s ss =>
      have hs : (0:ℝ) < s := hsd s (by simp)
      have ih2 := ih ss (fun y hy => hsd y (by simp [hy]))
      rw [specGaussKLrow] at ih2 ⊢
      simp only [List.zip_cons_cons, List.zipWith_cons_cons, List.sum_cons]
      have hterm : Real.log (s / s) + (s ^ 2 + (x - x) ^ 2) / (2 * s ^ 2)
          - 1 / 2 = (0:ℝ) := by
        rw [div_self (ne_of_gt hs), Real.log_one, sub_self]
        have hs2 : s ^ 2 ≠ 0 := pow_ne_zero 2 (ne_of_gt hs)
        field_simp
        ring
      rw [hterm, zero_add]
      exact ih2

/-! ### Claim theorems: TRPO KL divergence and ActorCritic construction -/

/-- C6: for every old/new categorical actor pair (MLP and CNN alike) and
every observation batch, `calculate_kl` computes the mean over the batch of
`Σ_a p_old(a) * log(p_old(a)/p_new(a))` with `p_old` the softmax of the old
logits and `p_new` of the new; and the detachment of `p_old` makes the result
depend on the old network only through its values — replacing the old
network's tangents (gradients) by anything with the same values leaves the
entire dual result, value and gradient, unchanged. -/
theorem c6_categorical_kl {α : Type} (old new : MLPCategoricalActor α)
    (cold cnew : CNNCategoricalActor α) (obs : List α) :
    ((MLPCategoricalActor.calculate_kl old new obs).val
      = batchMean (obs.map (fun o =>
          specCatKLrow (softmaxR ((old.logits_net o).map Dual.val))
                       (softmaxR ((new.logits_net o).map Dual.val)))))
    ∧ (∀ old' : MLPCategoricalActor α,
        (∀ o, (old'.logits_net o).map Dual.val
            = (old.logits_net o).map Dual.val) →
        MLPCategoricalActor.calculate_kl old' new obs
          = MLPCategoricalActor.calculate_kl old new obs)
    ∧ ((CNNCategoricalActor.calculate_kl cold cnew obs).val
      = batchMean (obs.map (fun o =>
          specCatKLrow
            (softmaxR ((cold.logits_mlp (cold.logits_cnn o)).map Dual.val))
            (softmaxR ((cnew.logits_mlp (cnew.logits_cnn o)).map Dual.val)))))
    ∧ (∀ cold' : CNNCategoricalActor α,
        (∀ o, (cold'.logits_mlp (cold'.logits_cnn o)).map Dual.val
            = (cold.logits_mlp (cold.logits_cnn o)).map Dual.val) →
        CNNCategoricalActor.calculate_kl cold' cnew obs
          = CNNCategoricalActor.calculate_kl cold cnew obs) :=
  ⟨mlpCat_kl_val old new obs,
   fun old' h => mlpCat_kl_old_vals old old' new obs h,
   cnnCat_kl_val cold cnew obs,
   fun cold' h => cnnCat_kl_old_vals cold cold' cnew obs h⟩

/-- Witness for C6: concrete two-action actors on a one-observation batch;
the value formula holds and changing only the old policy's tangents
(`catOldEx'` vs `catOldEx`) leaves the KL unchanged. -/
theorem c6_categorical_kl_witness :
    ((MLPCategoricalActor.calculate_kl catOldEx catNewEx [()]).val
      = batchMean [specCatKLrow (softmaxR [0, 0]) (softmaxR [0, 0])])
    ∧ (MLPCategoricalActor.calculate_kl catOldEx' catNewEx [()]
        = MLPCategoricalActor.calculate_kl catOldEx catNewEx [()])
    ∧ (CNNCategoricalActor.calculate_kl ccatOldEx' ccatNewEx [()]
        = CNNCategoricalActor.calculate_kl ccatOldEx ccatNewEx [()]) := by
  refine ⟨?_, ?_, ?_⟩
  · exact (c6_categorical_kl catOldEx catNewEx ccatOldEx ccatNewEx [()]).1
  · exact (c6_categorical_kl catOldEx catNewEx ccatOldEx ccatNewEx [()]).2.1
      catOldEx' (fun o => rfl)
  · exact (c6_categorical_kl catOldEx catNewEx ccatOldEx ccatNewEx
      [()]).2.2.2 ccatOldEx' (fun o => rfl)

/-- C7: for every old/new Gaussian actor pair (MLP and CNN alike) and every
observation batch, `calculate_kl` computes the batch mean of the analytic
per-dimension KL `log(s_new/s_old) + (s_old^2 + (mu_old - mu_new)^2) /
(2 s_new^2) - 1/2` summed over action dimensions, with the standard
deviations the exponentials of the log-std parameters; and the detached old
mean and std make the result depend on the old actor only through its
values. -/
theorem c7_gaussian_kl {α : Type} (old new : MLPGaussianActor α)
    (cold cnew : CNNGaussianActor α) (obs : List α) :
    ((MLPGaussianActor.calculate_kl old new obs).val
      = batchMean (obs.map (fun o =>
          specGaussKLrow ((old.mu_net o).map Dual.val)
            ((new.mu_net o).map Dual.val)
            (old.log_std.map (fun d => Real.exp d.val))
            (new.log_std.map (fun d => Real.exp d.val)))))
    ∧ (∀ old' : MLPGaussianActor α,
        (∀ o, (old'.mu_net o).map Dual.val = (old.mu_net o).map Dual.val) →
        old'.log_std.map Dual.val = old.log_std.map Dual.val →
        MLPGaussianActor.calculate_kl old' new obs
          = MLPGaussianActor.calculate_kl old new obs)
    ∧ ((CNNGaussianActor.calculate_kl cold cnew obs).val
      = batchMean (obs.map (fun o =>
          specGaussKLrow ((cold.forward_mu o).map Dual.val)
            ((cnew.forward_mu o).map Dual.val)
            (cold.log_std.map (fun d => Real.exp d.val))
            (cnew.log_std.map (fun d => Real.exp d.val)))))
    ∧ (∀ cold' : CNNGaussianActor α,
        (∀ o, (cold'.forward_mu o).map Dual.val
            = (cold.forward_mu o).map Dual.val) →
        cold'.log_std.map Dual.val = cold.log_std.map Dual.val →
        CNNGaussianActor.calculate_kl cold' cnew obs
          = CNNGaussianActor.calculate_kl cold cnew obs) :=
  ⟨mlpGauss_kl_val old new obs,
   fun old' h1 h2 => mlpGauss_kl_old_vals old old' new obs h1 h2,
   cnnGauss_kl_val cold cnew obs,
   fun cold' h1 h2 => cnnGauss_kl_old_vals cold cold' cnew obs h1 h2⟩

/-- Witness for C7: concrete one-dimensional Gaussian actors on a
one-observation batch; the value formula holds and changing only the old
policy's tangents leaves the KL unchanged. -/
theorem c7_gaussian_kl_witness :
    ((MLPGaussianActor.calculate_kl gaussOldEx gaussNewEx [()]).val
      = batchMean [specGaussKLrow [0] [1] [Real.exp 0] [Real.exp 0]])
    ∧ (MLPGaussianActor.calculate_kl gaussOldEx' gaussNewEx [()]
        = MLPGaussianActor.calculate_kl gaussOldEx gaussNewEx [()])
    ∧ (CNNGaussianActor.calculate_kl cgaussOldEx' cgaussNewEx [()]
        = CNNGaussianActor.calculate_kl cgaussOldEx cgaussNewEx [()]) := by
  refine ⟨?_, ?_, ?_⟩
  · exact (c7_gaussian_kl gaussOldEx gaussNewEx cgaussOldEx cgaussNewEx
      [()]).1
  · exact (c7_gaussian_kl gaussOldEx gaussNewEx cgaussOldEx cgaussNewEx
      [()]).2.1 gaussOldEx' (fun o => rfl) rfl
  · exact (c7_gaussian_kl gaussOldEx gaussNewEx cgaussOldEx cgaussNewEx
      [()]).2.2.2 cgaussOldEx' (fun o => rfl) rfl

/-- C8: the KL divergence of any actor against itself (identical parameters)
evaluates to exactly 0 on every nonempty observation batch, for the
categorical and the Gaussian variants, MLP and CNN backbones alike. -/
theorem c8_self_kl_zero {α : Type} (a : MLPCategoricalActor α)
    (g : MLPGaussianActor α) (ca : CNNCategoricalActor α)
    (cg : CNNGaussianActor α) (obs : List α) (hobs : obs ≠ []) :
    (MLPCategoricalActor.calculate_kl a a obs).val = 0
    ∧ (MLPGaussianActor.calculate_kl g g obs).val = 0
    ∧ (CNNCategoricalActor.calculate_kl ca ca obs).val = 0
    ∧ (CNNGaussianActor.calculate_kl cg cg obs).val = 0 := by
  refine ⟨?_, ?_, ?_, ?_⟩
  · rw [mlpCat_kl_val]
    apply batchMean_zeros
    intro x hx
    simp only [List.mem_map] at hx
    obtain ⟨o, _, rfl⟩ := hx
    exact specCatKLrow_self _ (softmaxR_pos _)
  · rw [mlpGauss_kl_val]
    apply batchMean_zeros
    intro x hx
    simp only [List.mem_map] at hx
    obtain ⟨o, _, rfl⟩ := hx
    apply specGaussKLrow_self
    intro s hs
    simp only [List.mem_map] at hs
    obtain ⟨d, _, rfl⟩ := hs
    exact Real.exp_pos _
  · rw [cnnCat_kl_val]
    apply batchMean_zeros
    intro x hx
    simp only [List.mem_map] at hx
    obtain ⟨o, _, rfl⟩ := hx
    exact specCatKLrow_self _ (softmaxR_pos _)
  · rw [cnnGauss_kl_val]
    apply batchMean_zeros
    intro x hx
    simp only [List.mem_map] at hx
    obtain ⟨o, _, rfl⟩ := hx
    apply specGaussKLrow_self
    intro s hs
    simp only [List.mem_map] at hs
    obtain ⟨d, _, rfl⟩ := hs
    exact Real.exp_pos _

/-- Witness for C8: the concrete actors against themselves on the nonempty
batch [()] all give KL value 0. -/
theorem c8_self_kl_zero_witness :
    (([()] : List Unit) ≠ [])
    ∧ (MLPCategoricalActor.calculate_kl catOldEx catOldEx [()]).val = 0
    ∧ (MLPGaussianActor.calculate_kl gaussOldEx gaussOldEx [()]).val = 0
    ∧ (CNNCategoricalActor.calculate_kl ccatOldEx ccatOldEx [()]).val = 0
    ∧ (CNNGaussianActor.calculate_kl cgaussOldEx cgaussOldEx [()]).val = 0 := by
  have h := c8_self_kl_zero catOldEx gaussOldEx ccatOldEx cgaussOldEx [()]
    (by simp)
  exact ⟨by simp, h.1, h.2.1, h.2.2.1, h.2.2.2⟩

/-- C9 counterexample: construction with an action space that is neither Box
nor Discrete (e.g. a MultiDiscrete-like space with nonempty shape) is not
rejected: both constructors succeed, returning an ActorCritic whose actor
slots were never assigned. -/
theorem c9_no_rejection_counterexample :
    MLPActorCritic.init (GymSpace.box [4]) (GymSpace.other [2] none)
        = Except.ok ⟨none, none, ()⟩
    ∧ CNNActorCritic.init (GymSpace.box [3, 128, 128]) (GymSpace.other [2] none)
        = Except.ok ⟨none, none, ()⟩ :=
  ⟨rfl, rfl⟩

/-- C9 (amended): a Box action space selects the Gaussian actor and a
Discrete one the categorical actor (MLP and CNN constructors alike); but a
space that is neither is not rejected with any unsupported-action-space
error: with a nonempty shape, construction silently completes with no actor
assigned, and with an empty shape and no `n` attribute it raises only the
incidental AttributeError of the action-dimension lookup. -/
theorem c9_actor_selection (d n : Nat) (s os : List Nat) (no : Option Nat) :
    (MLPActorCritic.init (GymSpace.box (d :: os)) (GymSpace.box (n :: s))
        = Except.ok ⟨some (ActorChoice.gaussian n),
            some (ActorChoice.gaussian n), ()⟩)
    ∧ (MLPActorCritic.init (GymSpace.box (d :: os)) (GymSpace.discrete n)
        = Except.ok ⟨some (ActorChoice.categorical n),
            some (ActorChoice.categorical n), ()⟩)
    ∧ (CNNActorCritic.init (GymSpace.box os) (GymSpace.box (n :: s))
        = Except.ok ⟨some (ActorChoice.gaussian n),
            some (ActorChoice.gaussian n), ()⟩)
    ∧ (CNNActorCritic.init (GymSpace.box os) (GymSpace.discrete n)
        = Except.ok ⟨some (ActorChoice.categorical n),
            some (ActorChoice.categorical n), ()⟩)
    ∧ (MLPActorCritic.init (GymSpace.box (d :: os)) (GymSpace.other (n :: s) no)
        = Except.ok ⟨none, none, ()⟩)
    ∧ (CNNActorCritic.init (GymSpace.box os) (GymSpace.other (n :: s) no)
        = Except.ok ⟨none, none, ()⟩)
    ∧ (MLPActorCritic.init (GymSpace.box (d :: os)) (GymSpace.other [] none)
        = Except.error PyError.attributeError) :=
  ⟨rfl, rfl, rfl, rfl, rfl, rfl, rfl⟩

end DeepRL
